import Mathlib

/-!
Verification of the SmartElectro cable-sizing engine
(`backend/app/services/cable_calculator.py`, plus the quick-calculate endpoint
of `backend/app/api/cable_calculator.py`).

The Python code computes with IEEE floats; here the numbers are modelled
exactly, in an arbitrary linear ordered field `K` (so every theorem holds in
particular for `K := ℝ`), and the float constant `math.sqrt(3)` is an explicit
parameter `s3` of every function that uses it.  Decimal literals of the source
(`12.1`, `0.94`, `1.25`, …) are written as exact fractions (`121/10`, `94/100`,
`125/100`, …).  Keeping `K` abstract keeps all definitions computable;
concrete runs of the engine (at `K := ℚ`) are evaluated by `norm_num`/`simp`.
-/

namespace SmartElectro

variable {K : Type} [LinearOrderedField K]

/-- One entry of the static cable catalog `self.cable_sizes`: the dict key
(a numeric string), its numeric value `area` (what Python's `float(size)`
returns, used by `max(..., key=float)`), the current-carrying capacity in
amperes and the resistance in ohm/km. -/
structure CableEntry (K : Type) where
  size : String
  area : K
  current_capacity : K
  resistance : K
  deriving DecidableEq

/-- The static catalog `self.cable_sizes`, in the insertion order of the
Python dict (which `for size, properties in self.cable_sizes.items()`
iterates in). -/
def cable_sizes : List (CableEntry K) :=
  [⟨"1.5", 3/2, 20, 121/10⟩,
   ⟨"2.5", 5/2, 27, 741/100⟩,
   ⟨"4", 4, 37, 461/100⟩,
   ⟨"6", 6, 47, 308/100⟩,
   ⟨"10", 10, 65, 183/100⟩,
   ⟨"16", 16, 85, 115/100⟩,
   ⟨"25", 25, 112, 727/1000⟩,
   ⟨"35", 35, 138, 524/1000⟩,
   ⟨"50", 50, 168, 387/1000⟩,
   ⟨"70", 70, 213, 268/1000⟩,
   ⟨"95", 95, 258, 193/1000⟩,
   ⟨"120", 120, 299, 153/1000⟩,
   ⟨"150", 150, 340, 124/1000⟩,
   ⟨"185", 185, 384, 99/1000⟩,
   ⟨"240", 240, 447, 754/10000⟩,
   ⟨"300", 300, 510, 601/10000⟩,
   ⟨"400", 400, 583, 470/10000⟩]

/-- `self.installation_factors.get(installation_method, 1.0)`: the dict has
four keys ("air", "conduit", "buried", "tray"); any other key falls through
to the default `1.0`. -/
def installationFactor (m : String) : K :=
  if m = "air" then 1
  else if m = "conduit" then 8/10
  else if m = "buried" then 7/10
  else if m = "tray" then 9/10
  else 1

/-- `self.temperature_factors.get(ambient_temp, 1.0)`: keys 30..60 in steps
of 5; any other key falls through to the default `1.0`. -/
def temperatureFactor (t : Int) : K :=
  if t = 30 then 1
  else if t = 35 then 94/100
  else if t = 40 then 87/100
  else if t = 45 then 79/100
  else if t = 50 then 71/100
  else if t = 55 then 61/100
  else if t = 60 then 50/100
  else 1

/-- `calculate_current`: single phase `I = P*1000 / (V*pf)`, otherwise
(any `phases != 1`) three phase `I = P*1000 / (sqrt(3)*V*pf)`. -/
def calculate_current (s3 voltage power_kw power_factor : K) (phases : Int) : K :=
  if phases = 1 then power_kw * 1000 / (voltage * power_factor)
  else power_kw * 1000 / (s3 * voltage * power_factor)

/-- `calculate_voltage_drop`: single phase `2*I*R*L/1000`, otherwise
`sqrt(3)*I*R*L/1000`. -/
def calculate_voltage_drop (s3 current resistance distance : K) (phases : Int) : K :=
  if phases = 1 then 2 * current * resistance * distance / 1000
  else s3 * current * resistance * distance / 1000

/-- `calculate_power_loss`: single phase `2*I^2*R*L/1000`, otherwise
`3*I^2*R*L/1000`. -/
def calculate_power_loss (current resistance distance : K) (phases : Int) : K :=
  if phases = 1 then 2 * current ^ 2 * resistance * distance / 1000
  else 3 * current ^ 2 * resistance * distance / 1000

/-- The catalog scan of `calculate_cable_sizing` (lines 126-139 of the
service): walk the entries in dict order; on the first entry whose capacity
is at least `derated_current * 1.25` AND whose voltage-drop percentage
(computed with the actual current) is within the limit, stop and return it;
otherwise keep scanning; return `none` when the list is exhausted. -/
def scanSizes (s3 current derated distance voltage voltage_drop_limit : K)
    (phases : Int) : List (CableEntry K) → Option (CableEntry K)
  | [] => none
  | e :: rest =>
    if e.current_capacity ≥ derated * (125/100) then
      if calculate_voltage_drop s3 current e.resistance distance phases / voltage * 100
          ≤ voltage_drop_limit then some e
      else scanSizes s3 current derated distance voltage voltage_drop_limit phases rest
    else scanSizes s3 current derated distance voltage voltage_drop_limit phases rest

/-- Python's running maximum: `max(iterable, key=float)` keeps the current
best and replaces it whenever a strictly larger key appears. -/
def maxByArea (best : CableEntry K) : List (CableEntry K) → CableEntry K
  | [] => best
  | e :: rest => maxByArea (if best.area < e.area then e else best) rest

/-- `max(self.cable_sizes.keys(), key=float)` (the fallback of the scan),
together with the subsequent dict indexing `self.cable_sizes[recommended_size]`
(keys are unique, so taking the whole entry is equivalent).  The empty-list
arm is unreachable: the static catalog is nonempty (Python's `max` would
raise on an empty iterable). -/
def largestCable : CableEntry K :=
  match cable_sizes (K := K) with
  | [] => ⟨"", 0, 0, 0⟩
  | e :: rest => maxByArea e rest

/-- The entry whose properties `calculate_cable_sizing` ends up using: the
scan result if the scan succeeded, the largest catalog entry otherwise. -/
def selectedEntry (s3 voltage power_kw power_factor distance voltage_drop_limit : K)
    (phases : Int) (installation_method : String) (ambient_temp : Int) : CableEntry K :=
  let current := calculate_current s3 voltage power_kw power_factor phases
  let derated_current := current /
    (installationFactor (K := K) installation_method * temperatureFactor (K := K) ambient_temp)
  (scanSizes s3 current derated_current distance voltage voltage_drop_limit phases
      (cable_sizes (K := K))).getD (largestCable (K := K))

/-- The numeric and echoed entries of the `details` dict of `CableResult`. -/
structure CableDetails (K : Type) where
  calculated_current : K
  derated_current : K
  cable_current_capacity : K
  installation_factor : K
  temperature_factor : K
  total_derating : K
  voltage_drop_volts : K
  voltage_drop_percentage : K
  power_loss_watts : K
  cable_resistance : K
  phases : Int
  installation_method : String
  ambient_temperature : Int
  deriving DecidableEq

/-- The `CableResult` dataclass.  As in the source, `voltage_drop` holds the
percentage and `details.voltage_drop_volts` the value in volts. -/
structure CableResult (K : Type) where
  recommended_cable_size : String
  voltage_drop : K
  power_loss : K
  current : K
  is_safe : Bool
  safety_factor : K
  details : CableDetails K
  deriving DecidableEq

/-- `calculate_cable_sizing` (lines 110-182 of the service), translated
line by line. -/
def calculate_cable_sizing (s3 voltage power_kw power_factor distance voltage_drop_limit : K)
    (phases : Int) (installation_method : String) (ambient_temp : Int) : CableResult K :=
  let current := calculate_current s3 voltage power_kw power_factor phases
  let installation_factor := installationFactor (K := K) installation_method
  let temperature_factor := temperatureFactor (K := K) ambient_temp
  let total_derating := installation_factor * temperature_factor
  let derated_current := current / total_derating
  let cable_properties := selectedEntry s3 voltage power_kw power_factor distance
    voltage_drop_limit phases installation_method ambient_temp
  let voltage_drop := calculate_voltage_drop s3 current cable_properties.resistance
    distance phases
  let power_loss := calculate_power_loss current cable_properties.resistance distance phases
  let voltage_drop_percentage := voltage_drop / voltage * 100
  let is_safe := decide (voltage_drop_percentage ≤ voltage_drop_limit ∧
    cable_properties.current_capacity ≥ derated_current * (125/100))
  let safety_factor := cable_properties.current_capacity / derated_current
  { recommended_cable_size := cable_properties.size ++ " mm²"
    voltage_drop := voltage_drop_percentage
    power_loss := power_loss
    current := current
    is_safe := is_safe
    safety_factor := safety_factor
    details :=
      { calculated_current := current
        derated_current := derated_current
        cable_current_capacity := cable_properties.current_capacity
        installation_factor := installation_factor
        temperature_factor := temperature_factor
        total_derating := total_derating
        voltage_drop_volts := voltage_drop
        voltage_drop_percentage := voltage_drop_percentage
        power_loss_watts := power_loss
        cable_resistance := cable_properties.resistance
        phases := phases
        installation_method := installation_method
        ambient_temperature := ambient_temp } }

/-- `validate_input_parameters` (lines 293-313): every violated constraint
appends its message; the list of all of them is returned. -/
def validate_input_parameters (voltage power_kw power_factor distance : K) : List String :=
  (if voltage ≤ 0 then ["Voltage must be positive"] else []) ++
  (if power_kw ≤ 0 then ["Power must be positive"] else []) ++
  (if power_factor ≤ 0 ∨ 1 < power_factor then ["Power factor must be between 0 and 1"] else []) ++
  (if distance ≤ 0 then ["Distance must be positive"] else []) ++
  (if 10000 < distance then ["Distance seems too large (>10km). Please verify."] else [])

/-- The `/quick-calculate` endpoint (api/cable_calculator.py lines 130-164),
stripped of HTTP glue: if validation returns a non-empty list the request is
rejected with a 400 error carrying the messages; otherwise the sizing result
is returned. -/
def quick_calculate (s3 voltage power_kw power_factor distance voltage_drop_limit : K)
    (phases : Int) (installation_method : String) (ambient_temp : Int) :
    Except (List String) (CableResult K) :=
  let errors := validate_input_parameters voltage power_kw power_factor distance
  if errors = [] then
    Except.ok (calculate_cable_sizing s3 voltage power_kw power_factor distance
      voltage_drop_limit phases installation_method ambient_temp)
  else Except.error errors

/-- One scenario dict of `calculate_multiple_scenarios`; a `none` field is an
absent key, resolved by `scenario.get(key, default)`. -/
structure Scenario (K : Type) where
  voltage : Option K
  power_kw : Option K
  power_factor : Option K
  distance : Option K
  voltage_drop_limit : Option K
  phases : Option Int
  installation_method : Option String
  ambient_temp : Option Int

/-- The loop body of `calculate_multiple_scenarios`: one sizing run with the
dict-lookup defaults of the source applied. -/
def scenarioResult (s3 : K) (s : Scenario K) : CableResult K :=
  calculate_cable_sizing s3 (s.voltage.getD 400) (s.power_kw.getD 10)
    (s.power_factor.getD (8/10)) (s.distance.getD 100) (s.voltage_drop_limit.getD 5)
    (s.phases.getD 3) (s.installation_method.getD "air") (s.ambient_temp.getD 30)

/-- `calculate_multiple_scenarios` (lines 194-211): the appending loop,
one result per scenario, in order. -/
def calculate_multiple_scenarios (s3 : K) : List (Scenario K) → List (CableResult K)
  | [] => []
  | s :: rest => scenarioResult s3 s :: calculate_multiple_scenarios s3 rest

/-- The condition the scan accepts an entry on, as the spec words it
(§4.3 step 4): capacity at least `deratedCurrent * 1.25`, and voltage-drop
percentage (at the entry's resistance, with the actual current) within the
limit. -/
def passes (s3 current derated distance voltage limit : K) (phases : Int)
    (e : CableEntry K) : Prop :=
  e.current_capacity ≥ derated * (125/100) ∧
  calculate_voltage_drop s3 current e.resistance distance phases / voltage * 100 ≤ limit

instance (s3 current derated distance voltage limit : K) (phases : Int)
    (e : CableEntry K) : Decidable (passes s3 current derated distance voltage limit phases e) := by
  unfold passes
  infer_instance

/-- Reference formula from spec §4.2, written from the spec's words (for the
refinement comparison of C7): the line current. -/
def specLineCurrent (s3 voltage power pf : K) (phases : Int) : K :=
  if phases = 1 then 1000 * power / (voltage * pf)
  else 1000 * power / (s3 * voltage * pf)

/-- Reference formula from spec §4.2 (refinement comparison): voltage drop
in volts. -/
def specVoltageDropVolts (s3 current resistance length : K) (phases : Int) : K :=
  if phases = 1 then 2 * current * resistance * length / 1000
  else s3 * current * resistance * length / 1000

/-- Reference formula from spec §4.2 (refinement comparison): power loss in
watts. -/
def specPowerLoss (current resistance length : K) (phases : Int) : K :=
  if phases = 1 then 2 * current ^ 2 * resistance * length / 1000
  else 3 * current ^ 2 * resistance * length / 1000

/-- The selection property claimed in C1, at given inputs: either some
catalog entry satisfies both constraints, no strictly smaller entry does,
and it is the recommended one -- or no entry satisfies both and the
recommendation is the largest size "400". -/
def firstMatchConclusion (s3 v p pf d limit : K) (phases : Int) (m : String) (t : Int) : Prop :=
  let current := calculate_current s3 v p pf phases
  let derated := current / (installationFactor (K := K) m * temperatureFactor (K := K) t)
  (∃ e ∈ cable_sizes (K := K),
      passes s3 current derated d v limit phases e ∧
      (∀ f ∈ cable_sizes (K := K), f.area < e.area →
        ¬ passes s3 current derated d v limit phases f) ∧
      (calculate_cable_sizing s3 v p pf d limit phases m t).recommended_cable_size =
        e.size ++ " mm²") ∨
  ((∀ e ∈ cable_sizes (K := K), ¬ passes s3 current derated d v limit phases e) ∧
    (calculate_cable_sizing s3 v p pf d limit phases m t).recommended_cable_size = "400 mm²")

/-! ### Shared lemmas about the embedding -/

theorem scanSizes_eq_find (s3 current derated distance voltage limit : K) (phases : Int) :
    ∀ l : List (CableEntry K),
      scanSizes s3 current derated distance voltage limit phases l =
        l.find? fun e => decide (passes s3 current derated distance voltage limit phases e) := by
  intro l
  induction l with
  | nil => rfl
  | cons e rest ih =>
    by_cases h1 : e.current_capacity ≥ derated * (125/100)
    · by_cases h2 : calculate_voltage_drop s3 current e.resistance distance phases /
          voltage * 100 ≤ limit
      · simp [scanSizes, h1, h2, List.find?_cons, passes]
      · simp [scanSizes, h1, h2, List.find?_cons, passes, ih]
    · simp [scanSizes, h1, List.find?_cons, passes, ih]

theorem find_first_of_sorted {α : Type} (p : α → Bool) (R : α → α → Prop)
    (hR : ∀ a b, R a b → ¬ R b a) :
    ∀ l : List α, l.Pairwise R → ∀ e, l.find? p = some e →
      e ∈ l ∧ p e = true ∧ ∀ f ∈ l, R f e → ¬ p f = true := by
  intro l
  induction l with
  | nil => intro _ e h; simp at h
  | cons a rest ih =>
    intro hpw e hfind
    rcases List.pairwise_cons.mp hpw with ⟨hfor, htail⟩
    by_cases hpa : p a = true
    · rw [List.find?_cons_of_pos _ hpa] at hfind
      obtain rfl : a = e := by injection hfind
      refine ⟨List.mem_cons_self _ _, hpa, ?_⟩
      intro f hf hRf
      rcases List.mem_cons.mp hf with rfl | hf
      · exact absurd hRf (hR _ _ hRf)
      · exact absurd hRf (hR _ _ (hfor f hf))
    · rw [List.find?_cons_of_neg _ hpa] at hfind
      obtain ⟨hmem, hpe, hfirst⟩ := ih htail e hfind
      refine ⟨List.mem_cons_of_mem _ hmem, hpe, ?_⟩
      intro f hf hRf
      rcases List.mem_cons.mp hf with rfl | hf
      · exact hpa
      · exact hfirst f hf hRf

instance : IsTrans (CableEntry K) fun a b => a.area < b.area :=
  ⟨fun _ _ _ h1 h2 => lt_trans h1 h2⟩

theorem cable_sizes_sorted :
    (cable_sizes (K := K)).Pairwise fun a b => a.area < b.area := by
  rw [← List.chain'_iff_pairwise]
  simp only [cable_sizes, List.chain'_cons, List.chain'_singleton, and_true]
  norm_num

theorem maxByArea_mem_cons (e : CableEntry K) (l : List (CableEntry K)) :
    maxByArea e l ∈ e :: l := by
  induction l generalizing e with
  | nil => simp [maxByArea]
  | cons f rest ih =>
    simp only [maxByArea]
    rcases List.mem_cons.mp (ih (if e.area < f.area then f else e)) with h | h
    · rw [h]
      split
      · exact List.mem_cons_of_mem _ (List.mem_cons_self _ _)
      · exact List.mem_cons_self _ _
    · exact List.mem_cons_of_mem _ (List.mem_cons_of_mem _ h)

theorem largestCable_mem : largestCable (K := K) ∈ cable_sizes (K := K) :=
  maxByArea_mem_cons _ _

theorem selectedEntry_mem (s3 v p pf d limit : K) (phases : Int) (m : String) (t : Int) :
    selectedEntry s3 v p pf d limit phases m t ∈ cable_sizes (K := K) := by
  unfold selectedEntry
  rcases hscan : scanSizes s3 (calculate_current s3 v p pf phases)
      (calculate_current s3 v p pf phases /
        (installationFactor (K := K) m * temperatureFactor (K := K) t))
      d v limit phases (cable_sizes (K := K)) with _ | e
  · simpa [hscan] using largestCable_mem (K := K)
  · have hfind := hscan
    rw [scanSizes_eq_find] at hfind
    simpa [hscan] using List.mem_of_find?_eq_some hfind

theorem largestCable_size : (largestCable (K := K)).size = "400" := by
  show (largestCable (K := K)).size = "400"
  norm_num [largestCable, cable_sizes, maxByArea]

theorem installationFactor_pos (m : String) : 0 < installationFactor (K := K) m := by
  unfold installationFactor
  split_ifs <;> norm_num

theorem temperatureFactor_pos (t : Int) : 0 < temperatureFactor (K := K) t := by
  unfold temperatureFactor
  split_ifs <;> norm_num

theorem calculate_current_pos (s3 v p pf : K) (phases : Int)
    (h3 : 0 < s3) (hv : 0 < v) (hp : 0 < p) (hpf : 0 < pf) :
    0 < calculate_current s3 v p pf phases := by
  unfold calculate_current
  split_ifs <;> positivity

theorem cable_sizes_entry_pos (e : CableEntry K) (he : e ∈ cable_sizes (K := K)) :
    0 < e.current_capacity ∧ 0 < e.resistance := by
  simp only [cable_sizes, List.mem_cons, List.not_mem_nil, or_false] at he
  rcases he with rfl | rfl | rfl | rfl | rfl | rfl | rfl | rfl | rfl |
    rfl | rfl | rfl | rfl | rfl | rfl | rfl | rfl <;> constructor <;> norm_num

theorem calc_recommended (s3 v p pf d limit : K) (phases : Int) (m : String) (t : Int) :
    (calculate_cable_sizing s3 v p pf d limit phases m t).recommended_cable_size =
      (selectedEntry s3 v p pf d limit phases m t).size ++ " mm²" := rfl

theorem calc_current_field (s3 v p pf d limit : K) (phases : Int) (m : String) (t : Int) :
    (calculate_cable_sizing s3 v p pf d limit phases m t).current =
      calculate_current s3 v p pf phases := rfl

theorem calc_voltage_drop_field (s3 v p pf d limit : K) (phases : Int) (m : String) (t : Int) :
    (calculate_cable_sizing s3 v p pf d limit phases m t).voltage_drop =
      calculate_voltage_drop s3 (calculate_current s3 v p pf phases)
        (selectedEntry s3 v p pf d limit phases m t).resistance d phases / v * 100 := rfl

theorem calc_power_loss_field (s3 v p pf d limit : K) (phases : Int) (m : String) (t : Int) :
    (calculate_cable_sizing s3 v p pf d limit phases m t).power_loss =
      calculate_power_loss (calculate_current s3 v p pf phases)
        (selectedEntry s3 v p pf d limit phases m t).resistance d phases := rfl

theorem calc_details_fields (s3 v p pf d limit : K) (phases : Int) (m : String) (t : Int) :
    (calculate_cable_sizing s3 v p pf d limit phases m t).details.installation_factor =
        installationFactor (K := K) m ∧
    (calculate_cable_sizing s3 v p pf d limit phases m t).details.temperature_factor =
        temperatureFactor (K := K) t ∧
    (calculate_cable_sizing s3 v p pf d limit phases m t).details.total_derating =
        installationFactor (K := K) m * temperatureFactor (K := K) t ∧
    (calculate_cable_sizing s3 v p pf d limit phases m t).details.derated_current =
        calculate_current s3 v p pf phases /
          (installationFactor (K := K) m * temperatureFactor (K := K) t) ∧
    (calculate_cable_sizing s3 v p pf d limit phases m t).details.cable_resistance =
        (selectedEntry s3 v p pf d limit phases m t).resistance ∧
    (calculate_cable_sizing s3 v p pf d limit phases m t).details.cable_current_capacity =
        (selectedEntry s3 v p pf d limit phases m t).current_capacity ∧
    (calculate_cable_sizing s3 v p pf d limit phases m t).details.voltage_drop_volts =
        calculate_voltage_drop s3 (calculate_current s3 v p pf phases)
          (selectedEntry s3 v p pf d limit phases m t).resistance d phases :=
  ⟨rfl, rfl, rfl, rfl, rfl, rfl, rfl⟩

/-! ### C1 -/

/-- C1: for every valid input (voltage > 0, power > 0, 0 < power factor ≤ 1,
distance > 0), `calculate_cable_sizing` scans the catalog -- which is in
strictly increasing cross-section order -- and recommends the first entry
satisfying both the ampacity check (capacity ≥ deratedCurrent·1.25) and the
voltage-drop check; if no entry satisfies both it recommends the largest
size "400", and it always returns a result (it is a total function). -/
theorem spec_C1_first_match (s3 v p pf d limit : K) (phases : Int) (m : String) (t : Int)
    (hv : 0 < v) (hp : 0 < p) (hpf0 : 0 < pf) (hpf1 : pf ≤ 1) (hd : 0 < d) :
    (cable_sizes (K := K)).Pairwise (fun a b => a.area < b.area) ∧
      firstMatchConclusion s3 v p pf d limit phases m t := by
  refine ⟨cable_sizes_sorted, ?_⟩
  unfold firstMatchConclusion
  rcases hscan : scanSizes s3 (calculate_current s3 v p pf phases)
      (calculate_current s3 v p pf phases /
        (installationFactor (K := K) m * temperatureFactor (K := K) t))
      d v limit phases (cable_sizes (K := K)) with _ | e
  · right
    have hfind := hscan
    rw [scanSizes_eq_find] at hfind
    have hall := List.find?_eq_none.mp hfind
    constructor
    · intro e he hpass
      exact absurd (decide_eq_true hpass) (by simpa using hall e he)
    · rw [calc_recommended]
      have hsel : selectedEntry s3 v p pf d limit phases m t = largestCable (K := K) := by
        simp only [selectedEntry]
        rw [hscan]
        rfl
      rw [hsel, largestCable_size]
      rfl
  · left
    have hfind := hscan
    rw [scanSizes_eq_find] at hfind
    obtain ⟨hmem, hpe, hfirst⟩ := find_first_of_sorted _ (fun a b => a.area < b.area)
      (fun a b h1 h2 => lt_asymm h1 h2) (cable_sizes (K := K)) cable_sizes_sorted e hfind
    refine ⟨e, hmem, of_decide_eq_true hpe, ?_, ?_⟩
    · intro f hf harea hpass
      exact hfirst f hf harea (decide_eq_true hpass)
    · rw [calc_recommended]
      have hsel : selectedEntry s3 v p pf d limit phases m t = e := by
        simp only [selectedEntry]
        rw [hscan]
        rfl
      rw [hsel]

/-- Witness for C1: the spec's own concrete scenario (400 V, 10 kW,
pf 0.8, three-phase, 100 m, air, 30 °C, 5 % limit), at the rational
instance of the field. -/
theorem spec_C1_witness :
    (0:ℚ) < 400 ∧ (0:ℚ) < 10 ∧ (0:ℚ) < 8/10 ∧ (8/10:ℚ) ≤ 1 ∧ (0:ℚ) < 100 ∧
      ((cable_sizes (K := ℚ)).Pairwise (fun a b => a.area < b.area) ∧
        firstMatchConclusion (2:ℚ) 400 10 (8/10) 100 5 3 "air" 30) :=
  ⟨by norm_num, by norm_num, by norm_num, by norm_num, by norm_num,
    spec_C1_first_match 2 400 10 (8/10) 100 5 3 "air" 30
      (by norm_num) (by norm_num) (by norm_num) (by norm_num) (by norm_num)⟩

theorem installationFactor_air : installationFactor (K := K) "air" = 1 := by
  simp [installationFactor]

theorem installationFactor_buried : installationFactor (K := K) "buried" = 7/10 := by
  simp [installationFactor]

theorem temperatureFactor_30 : temperatureFactor (K := K) 30 = 1 := by
  simp [temperatureFactor]

theorem temperatureFactor_60 : temperatureFactor (K := K) 60 = 50/100 := by
  simp [temperatureFactor]

/-! ### C2 -/

/-- C2 (counterexample): at 230 V, 2.3 kW, pf 1, single phase, 1 m, buried at
60 °C (combined derating 0.35) the scan selects the non-fallback entry "4"
(capacity 37 ≥ deratedCurrent·1.25 ≈ 35.7), yet
capacity × derating = 37·0.35 = 12.95 < deratedCurrent·1.25, refuting the
claim as stated. -/
theorem spec_C2_counterexample :
    scanSizes (2:ℚ) (calculate_current 2 230 (23/10) 1 1)
        (calculate_current (2:ℚ) 230 (23/10) 1 1 /
          (installationFactor (K := ℚ) "buried" * temperatureFactor (K := ℚ) 60))
        1 230 5 1 (cable_sizes (K := ℚ)) = some ⟨"4", 4, 37, 461/100⟩ ∧
    ¬ ((calculate_cable_sizing (2:ℚ) 230 (23/10) 1 1 5 1 "buried" 60).details.cable_current_capacity *
        (calculate_cable_sizing (2:ℚ) 230 (23/10) 1 1 5 1 "buried" 60).details.total_derating ≥
        (calculate_cable_sizing (2:ℚ) 230 (23/10) 1 1 5 1 "buried" 60).details.derated_current *
          (125/100)) := by
  constructor
  · norm_num [scanSizes, cable_sizes, calculate_current, calculate_voltage_drop,
      installationFactor_buried, temperatureFactor_60]
  · norm_num [calculate_cable_sizing, selectedEntry, scanSizes, cable_sizes, calculate_current,
      calculate_voltage_drop, calculate_power_loss, installationFactor_buried,
      temperatureFactor_60, Option.getD_some]

/-- C2 (amended): whenever the scan picks a non-fallback entry, that entry's
capacity is at least `deratedCurrent × 1.25` -- equivalently, capacity times
the combined derating factor is at least the *actual* current times 1.25 --
and that entry's capacity is the one reported in the result details. -/
theorem spec_C2_amended (s3 v p pf d limit : K) (phases : Int) (m : String) (t : Int)
    (e : CableEntry K)
    (h : scanSizes s3 (calculate_current s3 v p pf phases)
        (calculate_current s3 v p pf phases /
          (installationFactor (K := K) m * temperatureFactor (K := K) t))
        d v limit phases (cable_sizes (K := K)) = some e) :
    e.current_capacity ≥ calculate_current s3 v p pf phases /
        (installationFactor (K := K) m * temperatureFactor (K := K) t) * (125/100) ∧
    e.current_capacity * (installationFactor (K := K) m * temperatureFactor (K := K) t) ≥
      calculate_current s3 v p pf phases * (125/100) ∧
    (calculate_cable_sizing s3 v p pf d limit phases m t).details.cable_current_capacity =
      e.current_capacity := by
  have hfind := h
  rw [scanSizes_eq_find] at hfind
  have hpb := List.find?_some hfind
  simp only [decide_eq_true_eq] at hpb
  obtain ⟨hcap, -⟩ := hpb
  have htot : 0 < installationFactor (K := K) m * temperatureFactor (K := K) t :=
    mul_pos (installationFactor_pos m) (temperatureFactor_pos t)
  refine ⟨hcap, ?_, ?_⟩
  · have h2 := mul_le_mul_of_nonneg_right hcap htot.le
    have key : calculate_current s3 v p pf phases /
        (installationFactor (K := K) m * temperatureFactor (K := K) t) * (125/100) *
        (installationFactor (K := K) m * temperatureFactor (K := K) t) =
        calculate_current s3 v p pf phases * (125/100) := by
      field_simp
      ring
    linarith
  · have hsel : selectedEntry s3 v p pf d limit phases m t = e := by
      simp only [selectedEntry]
      rw [h]
      rfl
    rw [(calc_details_fields s3 v p pf d limit phases m t).2.2.2.2.2.1, hsel]

/-- Witness for C2: the counterexample scenario's hypothesis holds at the
entry "4", and the amended conclusion follows there. -/
theorem spec_C2_witness :
    scanSizes (3:ℚ) (calculate_current 3 230 (23/10) 1 1)
        (calculate_current (3:ℚ) 230 (23/10) 1 1 /
          (installationFactor (K := ℚ) "buried" * temperatureFactor (K := ℚ) 60))
        1 230 5 1 (cable_sizes (K := ℚ)) = some ⟨"4", 4, 37, 461/100⟩ ∧
    ((⟨"4", 4, 37, 461/100⟩ : CableEntry ℚ).current_capacity ≥
        calculate_current (3:ℚ) 230 (23/10) 1 1 /
          (installationFactor (K := ℚ) "buried" * temperatureFactor (K := ℚ) 60) * (125/100) ∧
      (⟨"4", 4, 37, 461/100⟩ : CableEntry ℚ).current_capacity *
          (installationFactor (K := ℚ) "buried" * temperatureFactor (K := ℚ) 60) ≥
        calculate_current (3:ℚ) 230 (23/10) 1 1 * (125/100) ∧
      (calculate_cable_sizing (3:ℚ) 230 (23/10) 1 1 5 1 "buried" 60).details.cable_current_capacity =
        (⟨"4", 4, 37, 461/100⟩ : CableEntry ℚ).current_capacity) :=
  ⟨by norm_num [scanSizes, cable_sizes, calculate_current, calculate_voltage_drop,
      installationFactor_buried, temperatureFactor_60],
    spec_C2_amended 3 230 (23/10) 1 1 5 1 "buried" 60 ⟨"4", 4, 37, 461/100⟩
      (by norm_num [scanSizes, cable_sizes, calculate_current, calculate_voltage_drop,
        installationFactor_buried, temperatureFactor_60])⟩

/-! ### C3 -/

/-- C3 (counterexample): at voltage 400, power 10, pf 0.8, distance 15000 the
quick-calculate endpoint answers with a 400 error carrying the distance
message -- the calculation does not proceed, refuting "the request is not
rejected". -/
theorem spec_C3_counterexample :
    quick_calculate (2:ℚ) 400 10 (8/10) 15000 5 3 "air" 30 =
      Except.error ["Distance seems too large (>10km). Please verify."] := by
  norm_num [quick_calculate, validate_input_parameters]

/-- C3 (amended): for inputs valid except that distance exceeds 10000 m,
validation produces exactly the warning-style message about the unusually
large distance; but since the HTTP layer rejects every request whose
validation list is non-empty, `quick_calculate` returns a 400 error carrying
that message and no `CableSizingResult` is produced. -/
theorem spec_C3_amended (s3 v p pf d limit : K) (phases : Int) (m : String) (t : Int)
    (hv : 0 < v) (hp : 0 < p) (hpf0 : 0 < pf) (hpf1 : pf ≤ 1) (hd : 10000 < d) :
    validate_input_parameters v p pf d =
      ["Distance seems too large (>10km). Please verify."] ∧
    quick_calculate s3 v p pf d limit phases m t =
      Except.error ["Distance seems too large (>10km). Please verify."] := by
  have h1 : ¬ v ≤ 0 := not_le.mpr hv
  have h2 : ¬ p ≤ 0 := not_le.mpr hp
  have h3 : ¬ (pf ≤ 0 ∨ 1 < pf) := by
    push_neg
    exact ⟨hpf0, hpf1⟩
  have h4 : ¬ d ≤ 0 := not_le.mpr (lt_trans (by norm_num) hd)
  have hval : validate_input_parameters v p pf d =
      ["Distance seems too large (>10km). Please verify."] := by
    simp [validate_input_parameters, h1, h2, h3, h4, hd]
  exact ⟨hval, by simp [quick_calculate, hval]⟩

/-- Witness for C3: the amended statement at the spec's concrete scenario
distance = 15000. -/
theorem spec_C3_witness :
    (0:ℚ) < 400 ∧ (0:ℚ) < 10 ∧ (0:ℚ) < 8/10 ∧ (8/10:ℚ) ≤ 1 ∧ (10000:ℚ) < 15000 ∧
    (validate_input_parameters (400:ℚ) 10 (8/10) 15000 =
        ["Distance seems too large (>10km). Please verify."] ∧
      quick_calculate (3:ℚ) 400 10 (8/10) 15000 5 3 "air" 30 =
        Except.error ["Distance seems too large (>10km). Please verify."]) :=
  ⟨by norm_num, by norm_num, by norm_num, by norm_num, by norm_num,
    spec_C3_amended 3 400 10 (8/10) 15000 5 3 "air" 30
      (by norm_num) (by norm_num) (by norm_num) (by norm_num) (by norm_num)⟩

/-! ### C4 -/

/-- C4 (counterexample): single phase, 230 V, 2.3 kW, pf 1, air/30 °C, limit
5 %: at 47 m the engine selects "1.5" and reports a 4.95 % drop and 113.7 W
loss; at 48 m the entry "1.5" fails the 5 % limit, the scan jumps to "2.5",
and the reported drop (3.09 %) and loss (71.1 W) are *smaller* -- refuting
monotonicity in distance. -/
theorem spec_C4_counterexample :
    (47:ℚ) < 48 ∧
    (calculate_cable_sizing (2:ℚ) 230 (23/10) 1 48 5 1 "air" 30).voltage_drop <
      (calculate_cable_sizing (2:ℚ) 230 (23/10) 1 47 5 1 "air" 30).voltage_drop ∧
    (calculate_cable_sizing (2:ℚ) 230 (23/10) 1 48 5 1 "air" 30).power_loss <
      (calculate_cable_sizing (2:ℚ) 230 (23/10) 1 47 5 1 "air" 30).power_loss := by
  refine ⟨by norm_num, ?_, ?_⟩ <;>
    norm_num [calculate_cable_sizing, selectedEntry, scanSizes, cable_sizes, calculate_current,
      calculate_voltage_drop, calculate_power_loss, installationFactor_air,
      temperatureFactor_30, Option.getD_some]

/-- C4 (amended): with all other parameters fixed, whenever the runs at
distances d1 ≤ d2 select the same cable entry, the reported voltage drop and
power loss at d2 are at least those at d1.  (The original end-to-end
monotonicity fails when the selected size changes, as the counterexample
shows; the per-size formulas themselves are monotone in distance.) -/
theorem spec_C4_amended (s3 v p pf limit : K) (phases : Int) (m : String) (t : Int)
    (d1 d2 : K) (h3 : 0 < s3) (hv : 0 < v) (hp : 0 < p) (hpf : 0 < pf) (hd : d1 ≤ d2)
    (hsel : selectedEntry s3 v p pf d1 limit phases m t =
      selectedEntry s3 v p pf d2 limit phases m t) :
    (calculate_cable_sizing s3 v p pf d1 limit phases m t).voltage_drop ≤
      (calculate_cable_sizing s3 v p pf d2 limit phases m t).voltage_drop ∧
    (calculate_cable_sizing s3 v p pf d1 limit phases m t).power_loss ≤
      (calculate_cable_sizing s3 v p pf d2 limit phases m t).power_loss := by
  have hI : 0 < calculate_current s3 v p pf phases :=
    calculate_current_pos s3 v p pf phases h3 hv hp hpf
  have hR : 0 < (selectedEntry s3 v p pf d1 limit phases m t).resistance :=
    (cable_sizes_entry_pos _ (selectedEntry_mem s3 v p pf d1 limit phases m t)).2
  rw [calc_voltage_drop_field s3 v p pf d1 limit phases m t,
    calc_voltage_drop_field s3 v p pf d2 limit phases m t,
    calc_power_loss_field s3 v p pf d1 limit phases m t,
    calc_power_loss_field s3 v p pf d2 limit phases m t, ← hsel]
  set current := calculate_current s3 v p pf phases with hc
  set resistance := (selectedEntry s3 v p pf d1 limit phases m t).resistance with hr
  unfold calculate_voltage_drop calculate_power_loss
  constructor
  · split_ifs
    · gcongr
    · gcongr
  · split_ifs
    · gcongr
    · gcongr

/-- Witness for C4: at equal distances the same entry is trivially selected
and the amended inequalities hold. -/
theorem spec_C4_witness :
    (0:ℚ) < 2 ∧ (0:ℚ) < 230 ∧ (0:ℚ) < 23/10 ∧ (0:ℚ) < 1 ∧ (100:ℚ) ≤ 100 ∧
    selectedEntry (2:ℚ) 230 (23/10) 1 100 5 1 "air" 30 =
      selectedEntry (2:ℚ) 230 (23/10) 1 100 5 1 "air" 30 ∧
    ((calculate_cable_sizing (2:ℚ) 230 (23/10) 1 100 5 1 "air" 30).voltage_drop ≤
        (calculate_cable_sizing (2:ℚ) 230 (23/10) 1 100 5 1 "air" 30).voltage_drop ∧
      (calculate_cable_sizing (2:ℚ) 230 (23/10) 1 100 5 1 "air" 30).power_loss ≤
        (calculate_cable_sizing (2:ℚ) 230 (23/10) 1 100 5 1 "air" 30).power_loss) :=
  ⟨by norm_num, by norm_num, by norm_num, by norm_num, le_rfl, rfl,
    spec_C4_amended 2 230 (23/10) 1 5 1 "air" 30 100 100
      (by norm_num) (by norm_num) (by norm_num) (by norm_num) le_rfl rfl⟩

/-! ### C5 -/

/-- C5: the engine is a total function (exactly one result per input), and
the recommended size of that result always identifies a catalog entry (its
dict key followed by " mm²"); the algorithm never invents a size outside the
catalog. -/
theorem spec_C5_catalog_size (s3 v p pf d limit : K) (phases : Int) (m : String) (t : Int) :
    (∃! r : CableResult K, calculate_cable_sizing s3 v p pf d limit phases m t = r) ∧
    ∃ e ∈ cable_sizes (K := K),
      (calculate_cable_sizing s3 v p pf d limit phases m t).recommended_cable_size =
        e.size ++ " mm²" :=
  ⟨⟨calculate_cable_sizing s3 v p pf d limit phases m t, rfl, fun _ h => h.symm⟩,
    selectedEntry s3 v p pf d limit phases m t,
    selectedEntry_mem s3 v p pf d limit phases m t, rfl⟩

/-! ### C6 -/

theorem calc_calculated_current (s3 v p pf d limit : K) (phases : Int) (m : String) (t : Int) :
    (calculate_cable_sizing s3 v p pf d limit phases m t).details.calculated_current =
      calculate_current s3 v p pf phases := rfl

/-- C6: for every installation method outside {air, conduit, buried, tray}
and every ambient temperature outside {30, 35, 40, 45, 50, 55, 60}, both
derating lookups fail open to exactly 1.0, the combined derating is 1, the
derated current equals the calculated current, and the calculation still
completes (the embedding is a total function). -/
theorem spec_C6_fail_open (s3 v p pf d limit : K) (phases : Int) (m : String) (t : Int)
    (hm : m ∉ ["air", "conduit", "buried", "tray"])
    (ht : t ∉ ([30, 35, 40, 45, 50, 55, 60] : List Int)) :
    installationFactor (K := K) m = 1 ∧ temperatureFactor (K := K) t = 1 ∧
    (calculate_cable_sizing s3 v p pf d limit phases m t).details.installation_factor = 1 ∧
    (calculate_cable_sizing s3 v p pf d limit phases m t).details.temperature_factor = 1 ∧
    (calculate_cable_sizing s3 v p pf d limit phases m t).details.total_derating = 1 ∧
    (calculate_cable_sizing s3 v p pf d limit phases m t).details.derated_current =
      (calculate_cable_sizing s3 v p pf d limit phases m t).details.calculated_current := by
  simp only [List.mem_cons, List.not_mem_nil, or_false, not_or] at hm ht
  obtain ⟨hm1, hm2, hm3, hm4⟩ := hm
  obtain ⟨ht1, ht2, ht3, ht4, ht5, ht6, ht7⟩ := ht
  have hif : installationFactor (K := K) m = 1 := by
    simp [installationFactor, hm1, hm2, hm3, hm4]
  have htf : temperatureFactor (K := K) t = 1 := by
    simp [temperatureFactor, ht1, ht2, ht3, ht4, ht5, ht6, ht7]
  obtain ⟨f1, f2, f3, f4, -, -, -⟩ := calc_details_fields s3 v p pf d limit phases m t
  refine ⟨hif, htf, ?_, ?_, ?_, ?_⟩
  · rw [f1, hif]
  · rw [f2, htf]
  · rw [f3, hif, htf]
    norm_num
  · rw [f4, hif, htf, calc_calculated_current]
    norm_num

/-- Witness for C6: the unknown method "duct" and the unknown temperature
25 °C. -/
theorem spec_C6_witness :
    ("duct" ∉ ["air", "conduit", "buried", "tray"]) ∧
    ((25:Int) ∉ ([30, 35, 40, 45, 50, 55, 60] : List Int)) ∧
    (installationFactor (K := ℚ) "duct" = 1 ∧ temperatureFactor (K := ℚ) 25 = 1 ∧
      (calculate_cable_sizing (2:ℚ) 400 10 (8/10) 100 5 3 "duct" 25).details.installation_factor = 1 ∧
      (calculate_cable_sizing (2:ℚ) 400 10 (8/10) 100 5 3 "duct" 25).details.temperature_factor = 1 ∧
      (calculate_cable_sizing (2:ℚ) 400 10 (8/10) 100 5 3 "duct" 25).details.total_derating = 1 ∧
      (calculate_cable_sizing (2:ℚ) 400 10 (8/10) 100 5 3 "duct" 25).details.derated_current =
        (calculate_cable_sizing (2:ℚ) 400 10 (8/10) 100 5 3 "duct" 25).details.calculated_current) :=
  ⟨by decide, by decide,
    spec_C6_fail_open 2 400 10 (8/10) 100 5 3 "duct" 25 (by decide) (by decide)⟩

/-! ### C7 -/

/-- C7: the reported current, voltage drop (volts and percent) and power
loss equal the §4.2 reference formulas evaluated at the selected cable's
resistance and the actual (non-derated) line current; derating and the 25 %
margin only influence which entry is selected. -/
theorem spec_C7_formulas (s3 v p pf d limit : K) (phases : Int) (m : String) (t : Int)
    (hph : phases = 1 ∨ phases = 3) :
    (calculate_cable_sizing s3 v p pf d limit phases m t).current =
      specLineCurrent s3 v p pf phases ∧
    (calculate_cable_sizing s3 v p pf d limit phases m t).details.voltage_drop_volts =
      specVoltageDropVolts s3 (specLineCurrent s3 v p pf phases)
        (calculate_cable_sizing s3 v p pf d limit phases m t).details.cable_resistance d phases ∧
    (calculate_cable_sizing s3 v p pf d limit phases m t).voltage_drop =
      specVoltageDropVolts s3 (specLineCurrent s3 v p pf phases)
        (calculate_cable_sizing s3 v p pf d limit phases m t).details.cable_resistance d phases
        / v * 100 ∧
    (calculate_cable_sizing s3 v p pf d limit phases m t).power_loss =
      specPowerLoss (specLineCurrent s3 v p pf phases)
        (calculate_cable_sizing s3 v p pf d limit phases m t).details.cable_resistance d phases := by
  have hcur : calculate_current s3 v p pf phases = specLineCurrent s3 v p pf phases := by
    unfold calculate_current specLineCurrent
    split_ifs
    · ring
    · ring
  have hvd : ∀ I R L : K, ∀ ph : Int,
      calculate_voltage_drop s3 I R L ph = specVoltageDropVolts s3 I R L ph :=
    fun _ _ _ _ => rfl
  have hpl : ∀ I R L : K, ∀ ph : Int,
      calculate_power_loss I R L ph = specPowerLoss I R L ph :=
    fun _ _ _ _ => rfl
  obtain ⟨-, -, -, -, hres, -, hvolts⟩ := calc_details_fields s3 v p pf d limit phases m t
  refine ⟨?_, ?_, ?_, ?_⟩
  · rw [calc_current_field, hcur]
  · rw [hvolts, hres, hvd, hcur]
  · rw [calc_voltage_drop_field, hres, hvd, hcur]
  · rw [calc_power_loss_field, hres, hpl, hcur]

/-- Witness for C7: the three-phase side of the hypothesis, at the spec's
concrete scenario. -/
theorem spec_C7_witness :
    ((3:Int) = 1 ∨ (3:Int) = 3) ∧
    ((calculate_cable_sizing (2:ℚ) 400 10 (8/10) 100 5 3 "air" 30).current =
        specLineCurrent (2:ℚ) 400 10 (8/10) 3 ∧
      (calculate_cable_sizing (2:ℚ) 400 10 (8/10) 100 5 3 "air" 30).details.voltage_drop_volts =
        specVoltageDropVolts (2:ℚ) (specLineCurrent (2:ℚ) 400 10 (8/10) 3)
          (calculate_cable_sizing (2:ℚ) 400 10 (8/10) 100 5 3 "air" 30).details.cable_resistance
          100 3 ∧
      (calculate_cable_sizing (2:ℚ) 400 10 (8/10) 100 5 3 "air" 30).voltage_drop =
        specVoltageDropVolts (2:ℚ) (specLineCurrent (2:ℚ) 400 10 (8/10) 3)
          (calculate_cable_sizing (2:ℚ) 400 10 (8/10) 100 5 3 "air" 30).details.cable_resistance
          100 3 / 400 * 100 ∧
      (calculate_cable_sizing (2:ℚ) 400 10 (8/10) 100 5 3 "air" 30).power_loss =
        specPowerLoss (specLineCurrent (2:ℚ) 400 10 (8/10) 3)
          (calculate_cable_sizing (2:ℚ) 400 10 (8/10) 100 5 3 "air" 30).details.cable_resistance
          100 3) :=
  ⟨Or.inr rfl, spec_C7_formulas 2 400 10 (8/10) 100 5 3 "air" 30 (Or.inr rfl)⟩

/-! ### C8 -/

/-- C8: validation collects every violated constraint into one list (one
message per violated constraint, each present exactly when its constraint is
violated); in particular voltage = 0 yields "Voltage must be positive", and
voltage = 0 together with power = 0 yields both messages. -/
theorem spec_C8_validation (v p pf d : K) :
    ("Voltage must be positive" ∈ validate_input_parameters v p pf d ↔ v ≤ 0) ∧
    ("Power must be positive" ∈ validate_input_parameters v p pf d ↔ p ≤ 0) ∧
    ("Power factor must be between 0 and 1" ∈ validate_input_parameters v p pf d ↔
      (pf ≤ 0 ∨ 1 < pf)) ∧
    ("Distance must be positive" ∈ validate_input_parameters v p pf d ↔ d ≤ 0) ∧
    ("Distance seems too large (>10km). Please verify." ∈ validate_input_parameters v p pf d ↔
      10000 < d) ∧
    "Voltage must be positive" ∈ validate_input_parameters 0 p pf d ∧
    "Voltage must be positive" ∈ validate_input_parameters 0 0 pf d ∧
    "Power must be positive" ∈ validate_input_parameters 0 0 pf d := by
  unfold validate_input_parameters
  split_ifs <;> simp_all

/-! ### C9 -/

/-- C9: the batch operation returns one result per input scenario, in input
order, each equal to the single-scenario sizing of that scenario (with the
source's dict-lookup defaults applied); entries are independent. -/
theorem spec_C9_batch (s3 : K) (l : List (Scenario K)) :
    (calculate_multiple_scenarios s3 l).length = l.length ∧
    ∀ i : Nat, (calculate_multiple_scenarios s3 l)[i]? =
      (l[i]?).map fun s => calculate_cable_sizing s3 (s.voltage.getD 400) (s.power_kw.getD 10)
        (s.power_factor.getD (8/10)) (s.distance.getD 100) (s.voltage_drop_limit.getD 5)
        (s.phases.getD 3) (s.installation_method.getD "air") (s.ambient_temp.getD 30) := by
  constructor
  · induction l with
    | nil => rfl
    | cons s rest ih => simpa [calculate_multiple_scenarios] using ih
  · intro i
    induction l generalizing i with
    | nil => simp [calculate_multiple_scenarios]
    | cons s rest ih =>
      cases i with
      | zero => simp [calculate_multiple_scenarios, scenarioResult]
      | succ n => simpa [calculate_multiple_scenarios] using ih n

/-! ### C10 -/

/-- The result with the echoed phases value in the detail breakdown replaced
(used to state how the `phases ≠ 1` result relates to the `phases = 3`
one). -/
def withPhases (r : CableResult K) (ph : Int) : CableResult K :=
  { r with details := { r.details with phases := ph } }

/-- C10 (counterexample): the results for phases = 2 and phases = 3 are not
identical -- the details breakdown echoes the given phases value (2 vs 3) --
refuting "a result identical to the phases = 3 case" as stated. -/
theorem spec_C10_counterexample :
    (calculate_cable_sizing (2:ℚ) 400 10 (8/10) 100 5 2 "air" 30).details.phases = 2 ∧
    (calculate_cable_sizing (2:ℚ) 400 10 (8/10) 100 5 3 "air" 30).details.phases = 3 ∧
    calculate_cable_sizing (2:ℚ) 400 10 (8/10) 100 5 2 "air" 30 ≠
      calculate_cable_sizing (2:ℚ) 400 10 (8/10) 100 5 3 "air" 30 := by
  refine ⟨rfl, rfl, fun h => ?_⟩
  have h2 : (2:Int) = 3 := congrArg (fun r : CableResult ℚ => r.details.phases) h
  exact absurd h2 (by decide)

/-- C10 (amended): for every phases value other than 1 (including 0 or 2)
the three-phase formulas are applied, and the sizing result is identical to
the phases = 3 case except that the details breakdown echoes the given
phases value. -/
theorem spec_C10_amended (s3 v p pf d limit I R L : K) (m : String) (t : Int)
    (phases : Int) (h : phases ≠ 1) :
    calculate_current s3 v p pf phases = calculate_current s3 v p pf 3 ∧
    calculate_voltage_drop s3 I R L phases = calculate_voltage_drop s3 I R L 3 ∧
    calculate_power_loss I R L phases = calculate_power_loss I R L 3 ∧
    calculate_cable_sizing s3 v p pf d limit phases m t =
      withPhases (calculate_cable_sizing s3 v p pf d limit 3 m t) phases := by
  have h3 : ¬ ((3:Int) = 1) := by decide
  have hI : calculate_current s3 v p pf phases = calculate_current s3 v p pf 3 := by
    simp [calculate_current, h, h3]
  have hvd : ∀ I R L : K, calculate_voltage_drop s3 I R L phases =
      calculate_voltage_drop s3 I R L 3 := by
    intro I R L
    simp [calculate_voltage_drop, h, h3]
  have hpl : ∀ I R L : K, calculate_power_loss I R L phases =
      calculate_power_loss I R L 3 := by
    intro I R L
    simp [calculate_power_loss, h, h3]
  have hscan : ∀ (c dr : K) (l : List (CableEntry K)),
      scanSizes s3 c dr d v limit phases l = scanSizes s3 c dr d v limit 3 l := by
    intro c dr l
    induction l with
    | nil => rfl
    | cons e rest ih => simp only [scanSizes, hvd, ih]
  have hsel : selectedEntry s3 v p pf d limit phases m t =
      selectedEntry s3 v p pf d limit 3 m t := by
    simp only [selectedEntry]
    rw [hI, hscan]
  refine ⟨hI, hvd I R L, hpl I R L, ?_⟩
  simp only [calculate_cable_sizing, withPhases]
  rw [hI, hsel]
  simp only [hvd, hpl]

/-- Witness for C10: phases = 0. -/
theorem spec_C10_witness :
    ((0:Int) ≠ 1) ∧
    (calculate_current (2:ℚ) 400 10 (8/10) 0 = calculate_current (2:ℚ) 400 10 (8/10) 3 ∧
      calculate_voltage_drop (2:ℚ) 18 (741/100) 100 0 =
        calculate_voltage_drop (2:ℚ) 18 (741/100) 100 3 ∧
      calculate_power_loss (18:ℚ) (741/100) 100 0 = calculate_power_loss (18:ℚ) (741/100) 100 3 ∧
      calculate_cable_sizing (2:ℚ) 400 10 (8/10) 100 5 0 "air" 30 =
        withPhases (calculate_cable_sizing (2:ℚ) 400 10 (8/10) 100 5 3 "air" 30) 0) :=
  ⟨by decide, spec_C10_amended 2 400 10 (8/10) 100 5 18 (741/100) 100 "air" 30 0 (by decide)⟩

end SmartElectro
